import Mathlib

/-!
# Verification of the api2spec-fixture-express tea-brewing API

Shallow embedding of the fixture's data model and route handlers
(`src/routes/teapots.ts`, `src/routes/teas.ts`, `src/routes/brews.ts`,
schemas in `src/schemas/*.ts`).  In-memory JS `Map` stores are embedded
as insertion-ordered association lists; handlers are pure functions from
the four-store application state (plus the request-scoped fresh UUID and
clock value) to a response and a new state.  Timestamps (ISO strings
produced by `new Date().toISOString()`) are embedded as natural numbers:
the handlers only ever write the current clock value, and string
comparison of ISO timestamps agrees with numeric comparison of times.
-/

namespace TeaApi

/-! ## Enumerations (src/schemas/teapot.ts, tea.ts, brew.ts) -/

inductive TeapotMaterial
  | ceramic | castIron | glass | porcelain | clay | stainlessSteel
deriving DecidableEq, Repr

inductive TeapotStyle
  | kyusu | gaiwan | english | moroccan | turkish | yixing
deriving DecidableEq, Repr

inductive TeaType
  | green | black | oolong | white | puerh | herbal | rooibos
deriving DecidableEq, Repr

inductive CaffeineLevel
  | none | low | medium | high
deriving DecidableEq, Repr

inductive BrewStatus
  | preparing | steeping | ready | served | cold
deriving DecidableEq, Repr

/-! ## Entities

Timestamps are clock values (`Nat`); nullable fields are `Option`;
integer-valued JS numbers are `Int`. -/

structure Teapot where
  id : String
  name : String
  material : TeapotMaterial
  capacityMl : Int
  style : TeapotStyle
  description : Option String
  createdAt : Nat
  updatedAt : Nat
deriving DecidableEq, Repr

structure Tea where
  id : String
  name : String
  type : TeaType
  origin : Option String
  caffeineLevel : CaffeineLevel
  steepTempCelsius : Int
  steepTimeSeconds : Int
  description : Option String
  createdAt : Nat
  updatedAt : Nat
deriving DecidableEq, Repr

structure Brew where
  id : String
  teapotId : String
  teaId : String
  status : BrewStatus
  waterTempCelsius : Int
  notes : Option String
  startedAt : Nat
  completedAt : Option Nat
  createdAt : Nat
  updatedAt : Nat
deriving DecidableEq, Repr

structure Steep where
  id : String
  brewId : String
  steepNumber : Nat
  durationSeconds : Int
  rating : Option Int
  notes : Option String
  createdAt : Nat
deriving DecidableEq, Repr

/-! ## Entity stores

A JS `Map` keyed by id: an insertion-ordered association list.
`Map.set` on a present key replaces the value in place (keeping the
original position); on an absent key it appends.  `Array.from(m.values())`
yields values in insertion order. -/

abbrev Store (α : Type) : Type := List (String × α)

namespace Store

def empty {α : Type} : Store α := []

def hasId {α : Type} (m : Store α) (k : String) : Bool :=
  m.any (fun e => e.1 == k)

def get {α : Type} (m : Store α) (k : String) : Option α :=
  (m.find? (fun e => e.1 == k)).map (fun e => e.2)

def set {α : Type} (m : Store α) (k : String) (v : α) : Store α :=
  if m.hasId k then
    m.map (fun e => if e.1 == k then (k, v) else e)
  else
    m ++ [(k, v)]

def del {α : Type} (m : Store α) (k : String) : Store α :=
  m.filter (fun e => e.1 != k)

/-- `Array.from(m.values())`: the values in insertion order. -/
def values {α : Type} (m : Store α) : List α :=
  m.map (fun e => e.2)

/-- Embeds the `for (const [k, v] of m.entries()) if (p v) m.delete(k)`
    loop: keep exactly the entries whose value fails `p`. -/
def deleteWhere {α : Type} (m : Store α) (p : α → Bool) : Store α :=
  m.filter (fun e => !(p e.2))

end Store

/-! ## The application state: the four module-level stores -/

structure AppState where
  teapots : Store Teapot
  teas : Store Tea
  brews : Store Brew
  steeps : Store Steep

def AppState.empty : AppState :=
  ⟨Store.empty, Store.empty, Store.empty, Store.empty⟩

/-! ## Responses -/

inductive Body
  | empty
  | err (code : String) (message : String)
  | teapotE (t : Teapot)
  | teaE (t : Tea)
  | brewE (b : Brew)
  | brewDetails (b : Brew) (tp : Teapot) (t : Tea)
  | steepE (s : Steep)
  | pageTeapots (data : List Teapot) (page limit total totalPages : Nat)
  | pageTeas (data : List Tea) (page limit total totalPages : Nat)
  | pageBrews (data : List Brew) (page limit total totalPages : Nat)
  | pageSteeps (data : List Steep) (page limit total totalPages : Nat)
deriving DecidableEq, Repr

structure Response where
  status : Nat
  body : Body
deriving DecidableEq, Repr

/-! ## UUID format (zod `z.string().uuid()`)

zod v3 checks the regex
`^([a-f0-9]{8}-[a-f0-9]{4}-[1-5][a-f0-9]{3}-[a-f0-9]{4}-[a-f0-9]{12}|00000000-0000-0000-0000-000000000000)$`
case-insensitively. -/

def isHexDigit (c : Char) : Bool :=
  c.isDigit || (97 ≤ c.toNat && c.toNat ≤ 102) || (65 ≤ c.toNat && c.toNat ≤ 70)

def isUuidVersionChar (c : Char) : Bool :=
  49 ≤ c.toNat && c.toNat ≤ 53

/-- Split a character list at every dash (the `-`-separated groups of
    the UUID regex). -/
def splitDashes (cs : List Char) : List (List Char) :=
  match cs with
  | [] => [[]]
  | c :: rest =>
    let r := splitDashes rest
    if c.toNat = 45 then [] :: r
    else
      match r with
      | g :: gs => (c :: g) :: gs
      | [] => [[c]]

def isUuid (s : String) : Bool :=
  s == "00000000-0000-0000-0000-000000000000" ||
  (match splitDashes s.toList with
   | [a, b, c, d, e] =>
     a.length == 8 && a.all isHexDigit &&
     b.length == 4 && b.all isHexDigit &&
     c.length == 4 && (match c with
                       | v :: rest => isUuidVersionChar v && rest.all isHexDigit
                       | [] => false) &&
     d.length == 4 && d.all isHexDigit &&
     e.length == 12 && e.all isHexDigit
   | _ => false)

/-! ## Query-string coercion (zod `z.coerce.number()`)

Query values arrive as strings; `z.coerce.number()` applies JS
`Number(...)` and `.int()` then rejects non-integers (including `NaN`
from non-numeric text).  We embed the integral fragment: a non-empty
all-digit string denotes that natural number, anything else fails the
`int` check. -/

def jsCoerceNat (s : String) : Option Nat :=
  if s.length ≠ 0 && s.toList.all Char.isDigit then
    some (s.toList.foldl (fun n c => n * 10 + (c.toNat - 48)) 0)
  else
    none

/-- `z.coerce.number().int().positive().default(1)` applied to an
    optional query-string value (page). -/
def parsePage (v : Option String) : Option Nat :=
  match v with
  | none => some 1
  | some s =>
    match jsCoerceNat s with
    | some n => if 0 < n then some n else none
    | none => none

/-- `z.coerce.number().int().positive().max(100).default(20)` applied to
    an optional query-string value (limit). -/
def parseLimit (v : Option String) : Option Nat :=
  match v with
  | none => some 20
  | some s =>
    match jsCoerceNat s with
    | some n => if 0 < n && n ≤ 100 then some n else none
    | none => none

/-! ## Query schemas -/

/-- Raw query string for plain pagination (`PaginationQuerySchema`). -/
structure PaginationQueryInput where
  page : Option String
  limit : Option String
deriving DecidableEq, Repr

structure PaginationQuery where
  page : Nat
  limit : Nat
deriving DecidableEq, Repr

/-- `PaginationQuerySchema.parse` (src/schemas/common.ts); `none` is the
    thrown `ZodError`. -/
def PaginationQuerySchema.parse (q : PaginationQueryInput) : Option PaginationQuery := do
  let page ← parsePage q.page
  let limit ← parseLimit q.limit
  pure ⟨page, limit⟩

def parseTeapotMaterial (s : String) : Option TeapotMaterial :=
  if s == "ceramic" then some .ceramic
  else if s == "cast-iron" then some .castIron
  else if s == "glass" then some .glass
  else if s == "porcelain" then some .porcelain
  else if s == "clay" then some .clay
  else if s == "stainless-steel" then some .stainlessSteel
  else none

def parseTeapotStyle (s : String) : Option TeapotStyle :=
  if s == "kyusu" then some .kyusu
  else if s == "gaiwan" then some .gaiwan
  else if s == "english" then some .english
  else if s == "moroccan" then some .moroccan
  else if s == "turkish" then some .turkish
  else if s == "yixing" then some .yixing
  else none

def parseBrewStatus (s : String) : Option BrewStatus :=
  if s == "preparing" then some .preparing
  else if s == "steeping" then some .steeping
  else if s == "ready" then some .ready
  else if s == "served" then some .served
  else if s == "cold" then some .cold
  else none

/-- Raw query string for `GET /teapots` (`TeapotQuerySchema`). -/
structure TeapotQueryInput where
  page : Option String
  limit : Option String
  material : Option String
  style : Option String
deriving DecidableEq, Repr

structure TeapotQuery where
  page : Nat
  limit : Nat
  material : Option TeapotMaterial
  style : Option TeapotStyle
deriving DecidableEq, Repr

def TeapotQuerySchema.parse (q : TeapotQueryInput) : Option TeapotQuery := do
  let page ← parsePage q.page
  let limit ← parseLimit q.limit
  let material ← match q.material with
    | none => pure Option.none
    | some s => (parseTeapotMaterial s).map Option.some
  let style ← match q.style with
    | none => pure Option.none
    | some s => (parseTeapotStyle s).map Option.some
  pure ⟨page, limit, material, style⟩

/-- Raw query string for `GET /brews` (`BrewQuerySchema`). -/
structure BrewQueryInput where
  page : Option String
  limit : Option String
  status : Option String
  teapotId : Option String
  teaId : Option String
deriving DecidableEq, Repr

structure BrewQuery where
  page : Nat
  limit : Nat
  status : Option BrewStatus
  teapotId : Option String
  teaId : Option String
deriving DecidableEq, Repr

def BrewQuerySchema.parse (q : BrewQueryInput) : Option BrewQuery := do
  let page ← parsePage q.page
  let limit ← parseLimit q.limit
  let status ← match q.status with
    | none => pure Option.none
    | some s => (parseBrewStatus s).map Option.some
  let teapotId ← match q.teapotId with
    | none => pure Option.none
    | some s => if isUuid s then some (Option.some s) else none
  let teaId ← match q.teaId with
    | none => pure Option.none
    | some s => if isUuid s then some (Option.some s) else none
  pure ⟨page, limit, status, teapotId, teaId⟩

/-! ## Body schemas

The raw body types carry each field as it may arrive: `Option` for
possibly-absent fields, and `Option (Option _)` where the schema also
allows an explicit `null` (outer `none` = field absent, `some none` =
`null`).  Inputs whose JSON type mismatches the schema outright are out
of frame; every declared constraint (length, range, enum, uuid) is
checked, and defaults filled, exactly as the zod schema declares. -/

structure CreateTeapotInput where
  name : Option String
  material : Option String
  capacityMl : Option Int
  style : Option String
  description : Option (Option String)
deriving DecidableEq, Repr

structure CreateTeapot where
  name : String
  material : TeapotMaterial
  capacityMl : Int
  style : TeapotStyle
  description : Option String
deriving DecidableEq, Repr

/-- `CreateTeapotSchema.safeParse` (src/schemas/teapot.ts). -/
def CreateTeapotSchema.safeParse (b : CreateTeapotInput) : Option CreateTeapot := do
  let name ← b.name
  if !(1 ≤ name.length && name.length ≤ 100) then failure
  let material ← b.material.bind parseTeapotMaterial
  let capacityMl ← b.capacityMl
  if !(0 < capacityMl && capacityMl ≤ 5000) then failure
  let style ← match b.style with
    | none => pure TeapotStyle.english
    | some s => parseTeapotStyle s
  let description ← match b.description with
    | none => pure Option.none
    | some Option.none => pure Option.none
    | some (Option.some d) =>
        if d.length ≤ 500 then pure (Option.some d) else failure
  pure ⟨name, material, capacityMl, style, description⟩

/-- `UpdateTeapotSchema` (PUT: all fields required, no defaults). -/
structure UpdateTeapotInput where
  name : Option String
  material : Option String
  capacityMl : Option Int
  style : Option String
  description : Option (Option String)
deriving DecidableEq, Repr

structure UpdateTeapot where
  name : String
  material : TeapotMaterial
  capacityMl : Int
  style : TeapotStyle
  description : Option String
deriving DecidableEq, Repr

def UpdateTeapotSchema.safeParse (b : UpdateTeapotInput) : Option UpdateTeapot := do
  let name ← b.name
  if !(1 ≤ name.length && name.length ≤ 100) then failure
  let material ← b.material.bind parseTeapotMaterial
  let capacityMl ← b.capacityMl
  if !(0 < capacityMl && capacityMl ≤ 5000) then failure
  let style ← b.style.bind parseTeapotStyle
  let description ← match b.description with
    | none => failure
    | some Option.none => pure Option.none
    | some (Option.some d) =>
        if d.length ≤ 500 then pure (Option.some d) else failure
  pure ⟨name, material, capacityMl, style, description⟩

/-- `PatchTeapotSchema`: every field optional; an absent field stays
    absent in the parse result (so the spread skips it). -/
structure PatchTeapot where
  name : Option String
  material : Option TeapotMaterial
  capacityMl : Option Int
  style : Option TeapotStyle
  description : Option (Option String)
deriving DecidableEq, Repr

structure PatchTeapotInput where
  name : Option String
  material : Option String
  capacityMl : Option Int
  style : Option String
  description : Option (Option String)
deriving DecidableEq, Repr

def PatchTeapotSchema.safeParse (b : PatchTeapotInput) : Option PatchTeapot := do
  let name ← match b.name with
    | none => pure Option.none
    | some n =>
        if 1 ≤ n.length && n.length ≤ 100 then pure (Option.some n) else failure
  let material ← match b.material with
    | none => pure Option.none
    | some s => (parseTeapotMaterial s).map Option.some
  let capacityMl ← match b.capacityMl with
    | none => pure Option.none
    | some c => if 0 < c && c ≤ 5000 then pure (Option.some c) else failure
  let style ← match b.style with
    | none => pure Option.none
    | some s => (parseTeapotStyle s).map Option.some
  let description ← match b.description with
    | none => pure Option.none
    | some Option.none => pure (Option.some Option.none)
    | some (Option.some d) =>
        if d.length ≤ 500 then pure (Option.some (Option.some d)) else failure
  pure ⟨name, material, capacityMl, style, description⟩

def parseTeaType (s : String) : Option TeaType :=
  if s == "green" then some .green
  else if s == "black" then some .black
  else if s == "oolong" then some .oolong
  else if s == "white" then some .white
  else if s == "puerh" then some .puerh
  else if s == "herbal" then some .herbal
  else if s == "rooibos" then some .rooibos
  else none

def parseCaffeineLevel (s : String) : Option CaffeineLevel :=
  if s == "none" then some .none
  else if s == "low" then some .low
  else if s == "medium" then some .medium
  else if s == "high" then some .high
  else none

structure CreateTeaInput where
  name : Option String
  type : Option String
  origin : Option String
  caffeineLevel : Option String
  steepTempCelsius : Option Int
  steepTimeSeconds : Option Int
  description : Option (Option String)
deriving DecidableEq, Repr

structure CreateTea where
  name : String
  type : TeaType
  origin : Option String
  caffeineLevel : CaffeineLevel
  steepTempCelsius : Int
  steepTimeSeconds : Int
  description : Option String
deriving DecidableEq, Repr

/-- `CreateTeaSchema.safeParse` (src/schemas/tea.ts). -/
def CreateTeaSchema.safeParse (b : CreateTeaInput) : Option CreateTea := do
  let name ← b.name
  if !(1 ≤ name.length && name.length ≤ 100) then failure
  let type ← b.type.bind parseTeaType
  let origin ← match b.origin with
    | none => pure Option.none
    | some o => if o.length ≤ 100 then pure (Option.some o) else failure
  let caffeineLevel ← match b.caffeineLevel with
    | none => pure CaffeineLevel.medium
    | some s => parseCaffeineLevel s
  let steepTempCelsius ← b.steepTempCelsius
  if !(60 ≤ steepTempCelsius && steepTempCelsius ≤ 100) then failure
  let steepTimeSeconds ← b.steepTimeSeconds
  if !(0 < steepTimeSeconds && steepTimeSeconds ≤ 600) then failure
  let description ← match b.description with
    | none => pure Option.none
    | some Option.none => pure Option.none
    | some (Option.some d) =>
        if d.length ≤ 1000 then pure (Option.some d) else failure
  pure ⟨name, type, origin, caffeineLevel, steepTempCelsius, steepTimeSeconds, description⟩

structure UpdateTea where
  name : String
  type : TeaType
  origin : Option String
  caffeineLevel : CaffeineLevel
  steepTempCelsius : Int
  steepTimeSeconds : Int
  description : Option String
deriving DecidableEq, Repr

/-- `UpdateTeaSchema.safeParse` (PUT: all required, no defaults). -/
def UpdateTeaSchema.safeParse (b : CreateTeaInput) : Option UpdateTea := do
  let name ← b.name
  if !(1 ≤ name.length && name.length ≤ 100) then failure
  let type ← b.type.bind parseTeaType
  let origin ← match b.origin with
    | none => pure Option.none
    | some o => if o.length ≤ 100 then pure (Option.some o) else failure
  let caffeineLevel ← b.caffeineLevel.bind parseCaffeineLevel
  let steepTempCelsius ← b.steepTempCelsius
  if !(60 ≤ steepTempCelsius && steepTempCelsius ≤ 100) then failure
  let steepTimeSeconds ← b.steepTimeSeconds
  if !(0 < steepTimeSeconds && steepTimeSeconds ≤ 600) then failure
  let description ← match b.description with
    | none => failure
    | some Option.none => pure Option.none
    | some (Option.some d) =>
        if d.length ≤ 1000 then pure (Option.some d) else failure
  pure ⟨name, type, origin, caffeineLevel, steepTempCelsius, steepTimeSeconds, description⟩

structure PatchTea where
  name : Option String
  type : Option TeaType
  origin : Option String
  caffeineLevel : Option CaffeineLevel
  steepTempCelsius : Option Int
  steepTimeSeconds : Option Int
  description : Option (Option String)
deriving DecidableEq, Repr

/-- `PatchTeaSchema.safeParse` (all optional). -/
def PatchTeaSchema.safeParse (b : CreateTeaInput) : Option PatchTea := do
  let name ← match b.name with
    | none => pure Option.none
    | some n =>
        if 1 ≤ n.length && n.length ≤ 100 then pure (Option.some n) else failure
  let type ← match b.type with
    | none => pure Option.none
    | some s => (parseTeaType s).map Option.some
  let origin ← match b.origin with
    | none => pure Option.none
    | some o => if o.length ≤ 100 then pure (Option.some o) else failure
  let caffeineLevel ← match b.caffeineLevel with
    | none => pure Option.none
    | some s => (parseCaffeineLevel s).map Option.some
  let steepTempCelsius ← match b.steepTempCelsius with
    | none => pure Option.none
    | some t => if 60 ≤ t && t ≤ 100 then pure (Option.some t) else failure
  let steepTimeSeconds ← match b.steepTimeSeconds with
    | none => pure Option.none
    | some t => if 0 < t && t ≤ 600 then pure (Option.some t) else failure
  let description ← match b.description with
    | none => pure Option.none
    | some Option.none => pure (Option.some Option.none)
    | some (Option.some d) =>
        if d.length ≤ 1000 then pure (Option.some (Option.some d)) else failure
  pure ⟨name, type, origin, caffeineLevel, steepTempCelsius, steepTimeSeconds, description⟩

structure CreateBrewInput where
  teapotId : Option String
  teaId : Option String
  waterTempCelsius : Option Int
  notes : Option (Option String)
deriving DecidableEq, Repr

structure CreateBrew where
  teapotId : String
  teaId : String
  waterTempCelsius : Option Int
  notes : Option String
deriving DecidableEq, Repr

/-- `CreateBrewSchema.safeParse` (src/schemas/brew.ts). -/
def CreateBrewSchema.safeParse (b : CreateBrewInput) : Option CreateBrew := do
  let teapotId ← b.teapotId
  if !(isUuid teapotId) then failure
  let teaId ← b.teaId
  if !(isUuid teaId) then failure
  let waterTempCelsius ← match b.waterTempCelsius with
    | none => pure Option.none
    | some w => if 60 ≤ w && w ≤ 100 then pure (Option.some w) else failure
  let notes ← match b.notes with
    | none => pure Option.none
    | some Option.none => pure Option.none
    | some (Option.some n) =>
        if n.length ≤ 500 then pure (Option.some n) else failure
  pure ⟨teapotId, teaId, waterTempCelsius, notes⟩

structure PatchBrewInput where
  status : Option String
  notes : Option (Option String)
  completedAt : Option (Option Nat)
deriving DecidableEq, Repr

structure PatchBrew where
  status : Option BrewStatus
  notes : Option (Option String)
  completedAt : Option (Option Nat)
deriving DecidableEq, Repr

/-- `PatchBrewSchema.safeParse` (status/notes/completedAt only, all optional). -/
def PatchBrewSchema.safeParse (b : PatchBrewInput) : Option PatchBrew := do
  let status ← match b.status with
    | none => pure Option.none
    | some s => (parseBrewStatus s).map Option.some
  let notes ← match b.notes with
    | none => pure Option.none
    | some Option.none => pure (Option.some Option.none)
    | some (Option.some n) =>
        if n.length ≤ 500 then pure (Option.some (Option.some n)) else failure
  pure ⟨status, notes, b.completedAt⟩

structure CreateSteepInput where
  durationSeconds : Option Int
  rating : Option (Option Int)
  notes : Option (Option String)
deriving DecidableEq, Repr

structure CreateSteep where
  durationSeconds : Int
  rating : Option Int
  notes : Option String
deriving DecidableEq, Repr

/-- `CreateSteepSchema.safeParse` (src/schemas/steep.ts). -/
def CreateSteepSchema.safeParse (b : CreateSteepInput) : Option CreateSteep := do
  let durationSeconds ← b.durationSeconds
  if !(0 < durationSeconds) then failure
  let rating ← match b.rating with
    | none => pure Option.none
    | some Option.none => pure Option.none
    | some (Option.some r) =>
        if 1 ≤ r && r ≤ 5 then pure (Option.some r) else failure
  let notes ← match b.notes with
    | none => pure Option.none
    | some Option.none => pure Option.none
    | some (Option.some n) =>
        if n.length ≤ 200 then pure (Option.some n) else failure
  pure ⟨durationSeconds, rating, notes⟩

/-! ## Merge on update/patch

`{...existing, ...result.data, updatedAt: now}`: keys present in the
parse result overwrite, absent keys keep the existing value; `id` and
`createdAt` are not in any update/patch schema, so they always come from
`existing`. -/

def Teapot.applyUpdate (e : Teapot) (u : UpdateTeapot) (now : Nat) : Teapot :=
  ⟨e.id, u.name, u.material, u.capacityMl, u.style, u.description, e.createdAt, now⟩

def Teapot.applyPatch (e : Teapot) (p : PatchTeapot) (now : Nat) : Teapot :=
  ⟨e.id, p.name.getD e.name, p.material.getD e.material,
   p.capacityMl.getD e.capacityMl, p.style.getD e.style,
   p.description.getD e.description, e.createdAt, now⟩

def Tea.applyUpdate (e : Tea) (u : UpdateTea) (now : Nat) : Tea :=
  ⟨e.id, u.name, u.type, u.origin, u.caffeineLevel, u.steepTempCelsius,
   u.steepTimeSeconds, u.description, e.createdAt, now⟩

def Tea.applyPatch (e : Tea) (p : PatchTea) (now : Nat) : Tea :=
  ⟨e.id, p.name.getD e.name, p.type.getD e.type,
   (match p.origin with | some o => some o | none => e.origin),
   p.caffeineLevel.getD e.caffeineLevel,
   p.steepTempCelsius.getD e.steepTempCelsius,
   p.steepTimeSeconds.getD e.steepTimeSeconds,
   p.description.getD e.description, e.createdAt, now⟩

def Brew.applyPatch (e : Brew) (p : PatchBrew) (now : Nat) : Brew :=
  ⟨e.id, e.teapotId, e.teaId, p.status.getD e.status, e.waterTempCelsius,
   p.notes.getD e.notes, e.startedAt, p.completedAt.getD e.completedAt,
   e.createdAt, now⟩

/-! ## Pagination (inlined identically in every list handler)

`totalPages = Math.ceil(total / limit)`; for natural `total` and
positive `limit` this is `(total + limit - 1) / limit` in `Nat`
division.  `data = items.slice(start, start + limit)` with
`start = (page - 1) * limit`. -/

def paginate {α : Type} (items : List α) (page limit : Nat) : List α × Nat :=
  let total := items.length
  let totalPages := (total + limit - 1) / limit
  let start := (page - 1) * limit
  ((items.drop start).take limit, totalPages)

/-! ## Route handlers

Each handler is a pure function of the application state and the
request pieces it reads (path param, parsed-from-wire body/query input,
and for creating/updating handlers the fresh `uuidv4()` value and the
current clock).  Mutating handlers return the new state; `GET` handlers
never write, so they return only the response.  List handlers whose
query parse uses `.parse` (which throws on failure) return `Option
Response`, `none` standing for the thrown `ZodError`. -/

def getTeapots (s : AppState) (rawQ : TeapotQueryInput) : Option Response :=
  match TeapotQuerySchema.parse rawQ with
  | none => none
  | some query =>
    let items := s.teapots.values
    let items := match query.material with
      | some m => items.filter (fun t => t.material == m)
      | none => items
    let items := match query.style with
      | some st => items.filter (fun t => t.style == st)
      | none => items
    let pg := paginate items query.page query.limit
    some ⟨200, .pageTeapots pg.1 query.page query.limit items.length pg.2⟩

def postTeapots (s : AppState) (body : CreateTeapotInput) (newId : String)
    (now : Nat) : Response × AppState :=
  match CreateTeapotSchema.safeParse body with
  | none => (⟨400, .err "VALIDATION_ERROR" "Invalid request body"⟩, s)
  | some d =>
    let teapot : Teapot :=
      ⟨newId, d.name, d.material, d.capacityMl, d.style, d.description, now, now⟩
    (⟨201, .teapotE teapot⟩, {s with teapots := s.teapots.set teapot.id teapot})

def getTeapotById (s : AppState) (idParam : String) : Response :=
  if !(isUuid idParam) then
    ⟨400, .err "VALIDATION_ERROR" "Invalid teapot ID format"⟩
  else
    match s.teapots.get idParam with
    | none => ⟨404, .err "NOT_FOUND" "Teapot not found"⟩
    | some teapot => ⟨200, .teapotE teapot⟩

def putTeapot (s : AppState) (idParam : String) (body : UpdateTeapotInput)
    (now : Nat) : Response × AppState :=
  if !(isUuid idParam) then
    (⟨400, .err "VALIDATION_ERROR" "Invalid teapot ID format"⟩, s)
  else
    match s.teapots.get idParam with
    | none => (⟨404, .err "NOT_FOUND" "Teapot not found"⟩, s)
    | some existing =>
      match UpdateTeapotSchema.safeParse body with
      | none => (⟨400, .err "VALIDATION_ERROR" "Invalid request body"⟩, s)
      | some d =>
        let teapot := existing.applyUpdate d now
        (⟨200, .teapotE teapot⟩, {s with teapots := s.teapots.set teapot.id teapot})

def patchTeapot (s : AppState) (idParam : String) (body : PatchTeapotInput)
    (now : Nat) : Response × AppState :=
  if !(isUuid idParam) then
    (⟨400, .err "VALIDATION_ERROR" "Invalid teapot ID format"⟩, s)
  else
    match s.teapots.get idParam with
    | none => (⟨404, .err "NOT_FOUND" "Teapot not found"⟩, s)
    | some existing =>
      match PatchTeapotSchema.safeParse body with
      | none => (⟨400, .err "VALIDATION_ERROR" "Invalid request body"⟩, s)
      | some d =>
        let teapot := existing.applyPatch d now
        (⟨200, .teapotE teapot⟩, {s with teapots := s.teapots.set teapot.id teapot})

def deleteTeapot (s : AppState) (idParam : String) : Response × AppState :=
  if !(isUuid idParam) then
    (⟨400, .err "VALIDATION_ERROR" "Invalid teapot ID format"⟩, s)
  else if !(s.teapots.hasId idParam) then
    (⟨404, .err "NOT_FOUND" "Teapot not found"⟩, s)
  else
    (⟨204, .empty⟩, {s with teapots := s.teapots.del idParam})

structure TeaQueryInput where
  page : Option String
  limit : Option String
  type : Option String
  caffeineLevel : Option String
deriving DecidableEq, Repr

structure TeaQuery where
  page : Nat
  limit : Nat
  type : Option TeaType
  caffeineLevel : Option CaffeineLevel
deriving DecidableEq, Repr

def TeaQuerySchema.parse (q : TeaQueryInput) : Option TeaQuery := do
  let page ← parsePage q.page
  let limit ← parseLimit q.limit
  let type ← match q.type with
    | none => pure Option.none
    | some s => (parseTeaType s).map Option.some
  let caffeineLevel ← match q.caffeineLevel with
    | none => pure Option.none
    | some s => (parseCaffeineLevel s).map Option.some
  pure ⟨page, limit, type, caffeineLevel⟩

def getTeas (s : AppState) (rawQ : TeaQueryInput) : Option Response :=
  match TeaQuerySchema.parse rawQ with
  | none => none
  | some query =>
    let items := s.teas.values
    let items := match query.type with
      | some ty => items.filter (fun t => t.type == ty)
      | none => items
    let items := match query.caffeineLevel with
      | some c => items.filter (fun t => t.caffeineLevel == c)
      | none => items
    let pg := paginate items query.page query.limit
    some ⟨200, .pageTeas pg.1 query.page query.limit items.length pg.2⟩

def postTeas (s : AppState) (body : CreateTeaInput) (newId : String)
    (now : Nat) : Response × AppState :=
  match CreateTeaSchema.safeParse body with
  | none => (⟨400, .err "VALIDATION_ERROR" "Invalid request body"⟩, s)
  | some d =>
    let tea : Tea :=
      ⟨newId, d.name, d.type, d.origin, d.caffeineLevel, d.steepTempCelsius,
       d.steepTimeSeconds, d.description, now, now⟩
    (⟨201, .teaE tea⟩, {s with teas := s.teas.set tea.id tea})

def getTeaById (s : AppState) (idParam : String) : Response :=
  if !(isUuid idParam) then
    ⟨400, .err "VALIDATION_ERROR" "Invalid tea ID format"⟩
  else
    match s.teas.get idParam with
    | none => ⟨404, .err "NOT_FOUND" "Tea not found"⟩
    | some tea => ⟨200, .teaE tea⟩

def putTea (s : AppState) (idParam : String) (body : CreateTeaInput)
    (now : Nat) : Response × AppState :=
  if !(isUuid idParam) then
    (⟨400, .err "VALIDATION_ERROR" "Invalid tea ID format"⟩, s)
  else
    match s.teas.get idParam with
    | none => (⟨404, .err "NOT_FOUND" "Tea not found"⟩, s)
    | some existing =>
      match UpdateTeaSchema.safeParse body with
      | none => (⟨400, .err "VALIDATION_ERROR" "Invalid request body"⟩, s)
      | some d =>
        let tea := existing.applyUpdate d now
        (⟨200, .teaE tea⟩, {s with teas := s.teas.set tea.id tea})

def patchTea (s : AppState) (idParam : String) (body : CreateTeaInput)
    (now : Nat) : Response × AppState :=
  if !(isUuid idParam) then
    (⟨400, .err "VALIDATION_ERROR" "Invalid tea ID format"⟩, s)
  else
    match s.teas.get idParam with
    | none => (⟨404, .err "NOT_FOUND" "Tea not found"⟩, s)
    | some existing =>
      match PatchTeaSchema.safeParse body with
      | none => (⟨400, .err "VALIDATION_ERROR" "Invalid request body"⟩, s)
      | some d =>
        let tea := existing.applyPatch d now
        (⟨200, .teaE tea⟩, {s with teas := s.teas.set tea.id tea})

def deleteTea (s : AppState) (idParam : String) : Response × AppState :=
  if !(isUuid idParam) then
    (⟨400, .err "VALIDATION_ERROR" "Invalid tea ID format"⟩, s)
  else if !(s.teas.hasId idParam) then
    (⟨404, .err "NOT_FOUND" "Tea not found"⟩, s)
  else
    (⟨204, .empty⟩, {s with teas := s.teas.del idParam})

def getBrews (s : AppState) (rawQ : BrewQueryInput) : Option Response :=
  match BrewQuerySchema.parse rawQ with
  | none => none
  | some query =>
    let items := s.brews.values
    let items := match query.status with
      | some st => items.filter (fun b => b.status == st)
      | none => items
    let items := match query.teapotId with
      | some tp => items.filter (fun b => b.teapotId == tp)
      | none => items
    let items := match query.teaId with
      | some t => items.filter (fun b => b.teaId == t)
      | none => items
    let pg := paginate items query.page query.limit
    some ⟨200, .pageBrews pg.1 query.page query.limit items.length pg.2⟩

def postBrews (s : AppState) (body : CreateBrewInput) (newId : String)
    (now : Nat) : Response × AppState :=
  match CreateBrewSchema.safeParse body with
  | none => (⟨400, .err "VALIDATION_ERROR" "Invalid request body"⟩, s)
  | some d =>
    match s.teapots.get d.teapotId with
    | none => (⟨400, .err "VALIDATION_ERROR" "Teapot not found"⟩, s)
    | some _ =>
      match s.teas.get d.teaId with
      | none => (⟨400, .err "VALIDATION_ERROR" "Tea not found"⟩, s)
      | some tea =>
        let brew : Brew :=
          ⟨newId, d.teapotId, d.teaId, .preparing,
           d.waterTempCelsius.getD tea.steepTempCelsius, d.notes,
           now, Option.none, now, now⟩
        (⟨201, .brewE brew⟩, {s with brews := s.brews.set brew.id brew})

def getBrewById (s : AppState) (idParam : String) : Response :=
  if !(isUuid idParam) then
    ⟨400, .err "VALIDATION_ERROR" "Invalid brew ID format"⟩
  else
    match s.brews.get idParam with
    | none => ⟨404, .err "NOT_FOUND" "Brew not found"⟩
    | some brew =>
      match s.teapots.get brew.teapotId, s.teas.get brew.teaId with
      | some teapot, some tea => ⟨200, .brewDetails brew teapot tea⟩
      | some _, none => ⟨200, .brewE brew⟩
      | none, some _ => ⟨200, .brewE brew⟩
      | none, none => ⟨200, .brewE brew⟩

def patchBrew (s : AppState) (idParam : String) (body : PatchBrewInput)
    (now : Nat) : Response × AppState :=
  if !(isUuid idParam) then
    (⟨400, .err "VALIDATION_ERROR" "Invalid brew ID format"⟩, s)
  else
    match s.brews.get idParam with
    | none => (⟨404, .err "NOT_FOUND" "Brew not found"⟩, s)
    | some existing =>
      match PatchBrewSchema.safeParse body with
      | none => (⟨400, .err "VALIDATION_ERROR" "Invalid request body"⟩, s)
      | some d =>
        let brew := existing.applyPatch d now
        (⟨200, .brewE brew⟩, {s with brews := s.brews.set brew.id brew})

def deleteBrew (s : AppState) (idParam : String) : Response × AppState :=
  if !(isUuid idParam) then
    (⟨400, .err "VALIDATION_ERROR" "Invalid brew ID format"⟩, s)
  else if !(s.brews.hasId idParam) then
    (⟨404, .err "NOT_FOUND" "Brew not found"⟩, s)
  else
    let steeps' := s.steeps.deleteWhere (fun st => st.brewId == idParam)
    (⟨204, .empty⟩, {s with steeps := steeps', brews := s.brews.del idParam})

def getBrewSteeps (s : AppState) (brewIdParam : String)
    (rawQ : PaginationQueryInput) : Option Response :=
  if !(isUuid brewIdParam) then
    some ⟨400, .err "VALIDATION_ERROR" "Invalid brew ID format"⟩
  else if !(s.brews.hasId brewIdParam) then
    some ⟨404, .err "NOT_FOUND" "Brew not found"⟩
  else
    match PaginationQuerySchema.parse rawQ with
    | none => none
    | some query =>
      let items := s.steeps.values.filter (fun st => st.brewId == brewIdParam)
      let items := items.mergeSort (fun a b => a.steepNumber ≤ b.steepNumber)
      let pg := paginate items query.page query.limit
      some ⟨200, .pageSteeps pg.1 query.page query.limit items.length pg.2⟩

def postBrewSteeps (s : AppState) (brewIdParam : String)
    (body : CreateSteepInput) (newId : String) (now : Nat) :
    Response × AppState :=
  if !(isUuid brewIdParam) then
    (⟨400, .err "VALIDATION_ERROR" "Invalid brew ID format"⟩, s)
  else if !(s.brews.hasId brewIdParam) then
    (⟨404, .err "NOT_FOUND" "Brew not found"⟩, s)
  else
    match CreateSteepSchema.safeParse body with
    | none => (⟨400, .err "VALIDATION_ERROR" "Invalid request body"⟩, s)
    | some d =>
      let existingSteeps := s.steeps.values.filter (fun st => st.brewId == brewIdParam)
      let steepNumber := existingSteeps.length + 1
      let steep : Steep :=
        ⟨newId, brewIdParam, steepNumber, d.durationSeconds, d.rating, d.notes, now⟩
      (⟨201, .steepE steep⟩, {s with steeps := s.steeps.set steep.id steep})

def getTeapotBrews (s : AppState) (teapotIdParam : String)
    (rawQ : PaginationQueryInput) : Option Response :=
  if !(isUuid teapotIdParam) then
    some ⟨400, .err "VALIDATION_ERROR" "Invalid teapot ID format"⟩
  else if !(s.teapots.hasId teapotIdParam) then
    some ⟨404, .err "NOT_FOUND" "Teapot not found"⟩
  else
    match PaginationQuerySchema.parse rawQ with
    | none => none
    | some query =>
      let items := s.brews.values.filter (fun b => b.teapotId == teapotIdParam)
      let pg := paginate items query.page query.limit
      some ⟨200, .pageBrews pg.1 query.page query.limit items.length pg.2⟩

/-- Modelled from the spec: the Express app's final error handler
    (`src/app.ts`, whose code is not among the provided sources; spec §6
    and §7 give the error body shape and the InternalError taxonomy).
    Any exception a route handler throws — in particular the `ZodError`
    from `Schema.parse` on a bad query string — is caught at the request
    boundary and converted into the structured response
    `500 {code: "INTERNAL_ERROR", message: "An unexpected error occurred"}`. -/
def appBoundary (r : Option Response) : Response :=
  match r with
  | some resp => resp
  | none => ⟨500, .err "INTERNAL_ERROR" "An unexpected error occurred"⟩

/-! ## Reachable states

The states the running fixture can be in: everything generated from the
empty stores by the mutating routes.  `uuidv4()` values are fresh, so
each create step carries the hypothesis that the generated id is not
already a key of the store it is inserted into. -/

inductive Reachable : AppState → Prop where
  | init : Reachable AppState.empty
  | stepPostTeapots {s : AppState} (body : CreateTeapotInput) (newId : String)
      (now : Nat) (h : Reachable s) (hfresh : s.teapots.hasId newId = false) :
      Reachable (postTeapots s body newId now).2
  | stepPutTeapot {s : AppState} (idParam : String) (body : UpdateTeapotInput)
      (now : Nat) (h : Reachable s) : Reachable (putTeapot s idParam body now).2
  | stepPatchTeapot {s : AppState} (idParam : String) (body : PatchTeapotInput)
      (now : Nat) (h : Reachable s) : Reachable (patchTeapot s idParam body now).2
  | stepDeleteTeapot {s : AppState} (idParam : String) (h : Reachable s) :
      Reachable (deleteTeapot s idParam).2
  | stepPostTeas {s : AppState} (body : CreateTeaInput) (newId : String)
      (now : Nat) (h : Reachable s) (hfresh : s.teas.hasId newId = false) :
      Reachable (postTeas s body newId now).2
  | stepPutTea {s : AppState} (idParam : String) (body : CreateTeaInput)
      (now : Nat) (h : Reachable s) : Reachable (putTea s idParam body now).2
  | stepPatchTea {s : AppState} (idParam : String) (body : CreateTeaInput)
      (now : Nat) (h : Reachable s) : Reachable (patchTea s idParam body now).2
  | stepDeleteTea {s : AppState} (idParam : String) (h : Reachable s) :
      Reachable (deleteTea s idParam).2
  | stepPostBrews {s : AppState} (body : CreateBrewInput) (newId : String)
      (now : Nat) (h : Reachable s) (hfresh : s.brews.hasId newId = false) :
      Reachable (postBrews s body newId now).2
  | stepPatchBrew {s : AppState} (idParam : String) (body : PatchBrewInput)
      (now : Nat) (h : Reachable s) : Reachable (patchBrew s idParam body now).2
  | stepDeleteBrew {s : AppState} (idParam : String) (h : Reachable s) :
      Reachable (deleteBrew s idParam).2
  | stepPostBrewSteeps {s : AppState} (brewIdParam : String)
      (body : CreateSteepInput) (newId : String) (now : Nat) (h : Reachable s)
      (hfresh : s.steeps.hasId newId = false) :
      Reachable (postBrewSteeps s brewIdParam body newId now).2

/-! ## Steep-numbering invariant (statement) -/

/-- The `steepNumber`s of the Steeps belonging to `b`, in store order. -/
def steepNums (m : Store Steep) (b : String) : List Nat :=
  (m.values.filter (fun st => st.brewId == b)).map Steep.steepNumber

/-- For every brew, the steep numbers are exactly `1, 2, …, N`. -/
def NumberingOk (s : AppState) : Prop :=
  ∀ b : String, steepNums s.steeps b = List.range' 1 (steepNums s.steeps b).length

/-! ## Concrete fixture data (used in the evaluation theorems)

A four-step run of the API: create a teapot, a tea, a brew referencing
both, and a steep under the brew. -/

def uuidA : String := "11111111-1111-1111-1111-111111111111"

def uuidB : String := "22222222-2222-2222-2222-222222222222"

def uuidC : String := "33333333-3333-3333-3333-333333333333"

def uuidD : String := "44444444-4444-4444-4444-444444444444"

def fixtureTeapotBody : CreateTeapotInput :=
  ⟨some "My Kyusu", some "clay", some 350, some "kyusu", none⟩

def fixtureTeaBody : CreateTeaInput :=
  ⟨some "Sencha", some "green", none, none, some 75, some 120, none⟩

def fixtureBrewBody : CreateBrewInput :=
  ⟨some uuidA, some uuidB, none, none⟩

def fixtureSteepBody : CreateSteepInput :=
  ⟨some 120, none, none⟩

def state1 : AppState := (postTeapots AppState.empty fixtureTeapotBody uuidA 0).2

def state2 : AppState := (postTeas state1 fixtureTeaBody uuidB 1).2

def state3 : AppState := (postBrews state2 fixtureBrewBody uuidC 2).2

def state4 : AppState := (postBrewSteeps state3 uuidC fixtureSteepBody uuidD 3).2

def fixtureTeapot : Teapot :=
  ⟨uuidA, "My Kyusu", .clay, 350, .kyusu, Option.none, 0, 0⟩

def fixtureTea : Tea :=
  ⟨uuidB, "Sencha", .green, Option.none, .medium, 75, 120, Option.none, 1, 1⟩

def fixtureBrew : Brew :=
  ⟨uuidC, uuidA, uuidB, .preparing, 75, Option.none, 2, Option.none, 2, 2⟩

/-! ## Store lemmas -/

theorem Store.set_fresh {α : Type} (m : Store α) (k : String) (v : α)
    (h : m.hasId k = false) : m.set k v = m ++ [(k, v)] := by
  simp [Store.set, h]

theorem Store.values_append {α : Type} (m m' : Store α) :
    (m ++ m').values = m.values ++ m'.values :=
  List.map_append _ m m'

theorem Store.values_filter {α : Type} (m : Store α) (p : α → Bool) :
    Store.values (List.filter (fun e => p e.2) m) = m.values.filter p := by
  rw [Store.values, Store.values, List.filter_map]
  rfl

theorem Store.hasId_del {α : Type} (m : Store α) (k : String) :
    (m.del k).hasId k = false := by
  rw [Store.hasId, List.any_eq_false]
  intro e he
  have h2 : e.1 ≠ k := by
    simpa [bne_iff_ne] using (List.mem_filter.mp he).2
  simp [h2]

theorem range'_snoc (a n : Nat) :
    List.range' a (n + 1) = List.range' a n ++ [a + n] := by
  induction n generalizing a with
  | zero => simp [List.range']
  | succ n ih =>
    have h1 : List.range' a (n + 1 + 1) = a :: List.range' (a + 1) (n + 1) := rfl
    have h2 : List.range' a (n + 1) = a :: List.range' (a + 1) n := rfl
    rw [h1, ih (a + 1), h2]
    simp [Nat.add_assoc, Nat.add_comm 1 n]

theorem steeps_postTeapots (s : AppState) (body : CreateTeapotInput)
    (newId : String) (now : Nat) :
    ((postTeapots s body newId now).2).steeps = s.steeps := by
  unfold postTeapots
  split <;> rfl

theorem steeps_putTeapot (s : AppState) (idParam : String)
    (body : UpdateTeapotInput) (now : Nat) :
    ((putTeapot s idParam body now).2).steeps = s.steeps := by
  unfold putTeapot
  split
  · rfl
  split
  · rfl
  split <;> rfl

theorem steeps_patchTeapot (s : AppState) (idParam : String)
    (body : PatchTeapotInput) (now : Nat) :
    ((patchTeapot s idParam body now).2).steeps = s.steeps := by
  unfold patchTeapot
  split
  · rfl
  split
  · rfl
  split <;> rfl

theorem steeps_deleteTeapot (s : AppState) (idParam : String) :
    ((deleteTeapot s idParam).2).steeps = s.steeps := by
  unfold deleteTeapot
  split
  · rfl
  split <;> rfl

theorem steeps_postTeas (s : AppState) (body : CreateTeaInput)
    (newId : String) (now : Nat) :
    ((postTeas s body newId now).2).steeps = s.steeps := by
  unfold postTeas
  split <;> rfl

theorem steeps_putTea (s : AppState) (idParam : String) (body : CreateTeaInput)
    (now : Nat) : ((putTea s idParam body now).2).steeps = s.steeps := by
  unfold putTea
  split
  · rfl
  split
  · rfl
  split <;> rfl

theorem steeps_patchTea (s : AppState) (idParam : String) (body : CreateTeaInput)
    (now : Nat) : ((patchTea s idParam body now).2).steeps = s.steeps := by
  unfold patchTea
  split
  · rfl
  split
  · rfl
  split <;> rfl

theorem steeps_deleteTea (s : AppState) (idParam : String) :
    ((deleteTea s idParam).2).steeps = s.steeps := by
  unfold deleteTea
  split
  · rfl
  split <;> rfl

theorem steeps_postBrews (s : AppState) (body : CreateBrewInput)
    (newId : String) (now : Nat) :
    ((postBrews s body newId now).2).steeps = s.steeps := by
  unfold postBrews
  split
  · rfl
  split
  · rfl
  split <;> rfl

theorem steeps_patchBrew (s : AppState) (idParam : String)
    (body : PatchBrewInput) (now : Nat) :
    ((patchBrew s idParam body now).2).steeps = s.steeps := by
  unfold patchBrew
  split
  · rfl
  split
  · rfl
  split <;> rfl

theorem steepNums_append_steep (m : Store Steep) (k : String) (st : Steep)
    (b : String) :
    steepNums (m ++ [(k, st)]) b =
      steepNums m b ++ (if st.brewId == b then [st.steepNumber] else []) := by
  rw [steepNums, steepNums, Store.values_append]
  rw [List.filter_append, List.map_append]
  congr 1
  by_cases h : st.brewId == b
  · simp [Store.values, List.filter, h]
  · have h' : (st.brewId == b) = false := by simpa using h
    simp [Store.values, List.filter, h']

theorem Store.values_deleteWhere {α : Type} (m : Store α) (p : α → Bool) :
    Store.values (m.deleteWhere p) = m.values.filter (fun v => !(p v)) := by
  rw [Store.deleteWhere]
  exact Store.values_filter m (fun v => !(p v))

theorem numberingOk_postBrewSteeps (s : AppState) (brewIdParam : String)
    (body : CreateSteepInput) (newId : String) (now : Nat)
    (hfresh : s.steeps.hasId newId = false) (hok : NumberingOk s) :
    NumberingOk (postBrewSteeps s brewIdParam body newId now).2 := by
  unfold postBrewSteeps
  split
  · exact hok
  split
  · exact hok
  split
  · exact hok
  intro b
  dsimp only
  rw [Store.set_fresh _ _ _ hfresh]
  rw [steepNums_append_steep]
  dsimp only
  by_cases hb : brewIdParam = b
  · subst hb
    rw [if_pos (by simp)]
    have hlen : (steepNums s.steeps brewIdParam).length =
        (s.steeps.values.filter (fun st => st.brewId == brewIdParam)).length := by
      rw [steepNums, List.length_map]
    rw [hok brewIdParam]
    rw [List.length_append, List.length_range', hlen]
    rw [List.length_singleton, range'_snoc]
    simp [Nat.add_comm]
  · rw [if_neg (by simpa using hb), List.append_nil]
    exact hok b

theorem numberingOk_deleteBrew (s : AppState) (idParam : String)
    (hok : NumberingOk s) : NumberingOk (deleteBrew s idParam).2 := by
  unfold deleteBrew
  split
  · exact hok
  split
  · exact hok
  intro b
  dsimp only
  rw [steepNums, Store.values_deleteWhere, List.filter_filter]
  by_cases hb : b = idParam
  · subst hb
    have hnil : (s.steeps.values.filter
        (fun st => (st.brewId == b) && !(st.brewId == b))) = [] := by
      rw [List.filter_eq_nil_iff]
      intro st _
      by_cases h : st.brewId == b <;> simp [h]
    rw [hnil]
    rfl
  · have hpred : ∀ st : Steep,
        ((st.brewId == b) && !(st.brewId == idParam)) = (st.brewId == b) := by
      intro st
      by_cases h : st.brewId = b
      · subst h
        have hne : (st.brewId == idParam) = false := by simpa using hb
        simp [hne]
      · have hne : (st.brewId == b) = false := by simpa using h
        simp [hne]
    rw [List.filter_congr (fun st _ => hpred st)]
    exact hok b

/-- Every reachable state satisfies the dense-numbering invariant. -/
theorem reachable_numberingOk {s : AppState} (h : Reachable s) :
    NumberingOk s := by
  induction h with
  | init =>
    intro b
    rfl
  | stepPostTeapots body newId now _ _ ih =>
    intro b
    rw [NumberingOk] at ih
    rw [steeps_postTeapots]
    exact ih b
  | stepPutTeapot idParam body now _ ih =>
    intro b
    rw [steeps_putTeapot]
    exact ih b
  | stepPatchTeapot idParam body now _ ih =>
    intro b
    rw [steeps_patchTeapot]
    exact ih b
  | stepDeleteTeapot idParam _ ih =>
    intro b
    rw [steeps_deleteTeapot]
    exact ih b
  | stepPostTeas body newId now _ _ ih =>
    intro b
    rw [steeps_postTeas]
    exact ih b
  | stepPutTea idParam body now _ ih =>
    intro b
    rw [steeps_putTea]
    exact ih b
  | stepPatchTea idParam body now _ ih =>
    intro b
    rw [steeps_patchTea]
    exact ih b
  | stepDeleteTea idParam _ ih =>
    intro b
    rw [steeps_deleteTea]
    exact ih b
  | stepPostBrews body newId now _ _ ih =>
    intro b
    rw [steeps_postBrews]
    exact ih b
  | stepPatchBrew idParam body now _ ih =>
    intro b
    rw [steeps_patchBrew]
    exact ih b
  | stepDeleteBrew idParam _ ih =>
    exact numberingOk_deleteBrew _ _ ih
  | stepPostBrewSteeps brewIdParam body newId now _ hfresh ih =>
    exact numberingOk_postBrewSteeps _ _ _ _ _ hfresh ih

/-! ## Claim theorems -/

/-- C1: DELETE /brews/:id on a Brew present in the store responds 204 and,
in the same operation, removes every Steep whose brewId equals the Brew's
id (retaining all other Steeps) and removes the Brew itself; afterwards no
Steep with that brewId remains in the steep store and the steep-list
endpoint for that brewId answers 404, so all associated Steeps are
unreachable through it. -/
theorem brew_delete_cascades (s : AppState) (idParam : String)
    (hu : isUuid idParam = true) (hex : s.brews.hasId idParam = true) :
    (deleteBrew s idParam).1.status = 204 ∧
    (∀ st ∈ Store.values ((deleteBrew s idParam).2).steeps, st.brewId ≠ idParam) ∧
    ((deleteBrew s idParam).2).brews.hasId idParam = false ∧
    (∀ e ∈ s.steeps, e.2.brewId ≠ idParam → e ∈ ((deleteBrew s idParam).2).steeps) ∧
    (∀ q : PaginationQueryInput,
      getBrewSteeps ((deleteBrew s idParam).2) idParam q =
        some ⟨404, .err "NOT_FOUND" "Brew not found"⟩) := by
  have hd : deleteBrew s idParam =
      (⟨204, .empty⟩,
       ⟨s.teapots, s.teas, s.brews.del idParam,
        s.steeps.deleteWhere (fun st => st.brewId == idParam)⟩) := by
    unfold deleteBrew
    rw [hu, hex]
    rfl
  rw [hd]
  refine ⟨rfl, ?_, Store.hasId_del s.brews idParam, ?_, ?_⟩
  · intro st hst heq
    rw [Store.values_deleteWhere] at hst
    have h2 := (List.mem_filter.mp hst).2
    simp [heq] at h2
  · intro e he hne
    simp only [Store.deleteWhere]
    exact List.mem_filter.mpr ⟨he, by simp [hne]⟩
  · intro q
    simp [getBrewSteeps, hu, Store.hasId_del]

/-- C1 witness: the cascade theorem instantiated on the concrete run in
which a Steep exists under the brew `uuidC`. -/
theorem brew_delete_cascades_witness :
    (deleteBrew state4 uuidC).1.status = 204 ∧
    ((deleteBrew state4 uuidC).2).brews.hasId uuidC = false :=
  have h := brew_delete_cascades state4 uuidC (by decide) (by decide)
  ⟨h.1, h.2.2.1⟩

/-- C3: when the POST /brews body passes schema validation but the
referenced Teapot (resp. Tea) is absent from its store, the handler
responds 400 VALIDATION_ERROR with message "Teapot not found" (resp.
"Tea not found"), not 404. -/
theorem postBrews_referential_validation_error (s : AppState)
    (body : CreateBrewInput) (newId : String) (now : Nat) (d : CreateBrew)
    (hparse : CreateBrewSchema.safeParse body = some d) :
    (s.teapots.get d.teapotId = Option.none →
      (postBrews s body newId now).1 =
        ⟨400, .err "VALIDATION_ERROR" "Teapot not found"⟩ ∧
      (postBrews s body newId now).1.status ≠ 404) ∧
    (∀ tp, s.teapots.get d.teapotId = some tp →
      s.teas.get d.teaId = Option.none →
      (postBrews s body newId now).1 =
        ⟨400, .err "VALIDATION_ERROR" "Tea not found"⟩ ∧
      (postBrews s body newId now).1.status ≠ 404) := by
  constructor
  · intro habs
    have h1 : (postBrews s body newId now).1 =
        ⟨400, .err "VALIDATION_ERROR" "Teapot not found"⟩ := by
      simp [postBrews, hparse, habs]
    exact ⟨h1, by rw [h1]; simp⟩
  · intro tp htp habs
    have h1 : (postBrews s body newId now).1 =
        ⟨400, .err "VALIDATION_ERROR" "Tea not found"⟩ := by
      simp [postBrews, hparse, htp, habs]
    exact ⟨h1, by rw [h1]; simp⟩

/-- C3 witness: creating a brew against the empty stores with a
well-formed body yields the "Teapot not found" 400. -/
theorem postBrews_referential_validation_error_witness :
    (postBrews AppState.empty fixtureBrewBody uuidC 0).1 =
      ⟨400, .err "VALIDATION_ERROR" "Teapot not found"⟩ :=
  ((postBrews_referential_validation_error AppState.empty fixtureBrewBody
    uuidC 0 ⟨uuidA, uuidB, Option.none, Option.none⟩ (by decide)).1
    (by decide)).1

/-- C4: POST /brews/:brewId/steeps with a well-formed UUID brewId that is
not in the brew store responds 404 NOT_FOUND "Brew not found". -/
theorem postBrewSteeps_missing_brew_404 (s : AppState) (brewIdParam : String)
    (body : CreateSteepInput) (newId : String) (now : Nat)
    (hu : isUuid brewIdParam = true)
    (habs : s.brews.hasId brewIdParam = false) :
    (postBrewSteeps s brewIdParam body newId now).1 =
      ⟨404, .err "NOT_FOUND" "Brew not found"⟩ ∧
    (postBrewSteeps s brewIdParam body newId now).2 = s := by
  constructor <;> simp [postBrewSteeps, hu, habs]

/-- C4 witness: posting a steep under an unknown (well-formed) brew id in
the empty state yields the 404. -/
theorem postBrewSteeps_missing_brew_404_witness :
    (postBrewSteeps AppState.empty uuidC fixtureSteepBody uuidD 0).1 =
      ⟨404, .err "NOT_FOUND" "Brew not found"⟩ :=
  (postBrewSteeps_missing_brew_404 AppState.empty uuidC fixtureSteepBody
    uuidD 0 (by decide) (by decide)).1

/-- C8: GET /brews/:id on an existing Brew returns 200 with the teapot and
tea sub-objects inlined when both referenced entities are present, and the
bare Brew with status 200 (no error) when either is absent. -/
theorem getBrewById_expansion (s : AppState) (idParam : String) (brew : Brew)
    (hu : isUuid idParam = true) (hb : s.brews.get idParam = some brew) :
    (∀ tp t, s.teapots.get brew.teapotId = some tp →
      s.teas.get brew.teaId = some t →
      getBrewById s idParam = ⟨200, .brewDetails brew tp t⟩) ∧
    ((s.teapots.get brew.teapotId = Option.none ∨
      s.teas.get brew.teaId = Option.none) →
      getBrewById s idParam = ⟨200, .brewE brew⟩) := by
  constructor
  · intro tp t htp ht
    simp [getBrewById, hu, hb, htp, ht]
  · intro habs
    rcases habs with h | h
    · cases ht : s.teas.get brew.teaId <;>
        simp [getBrewById, hu, hb, h, ht]
    · cases htp : s.teapots.get brew.teapotId <;>
        simp [getBrewById, hu, hb, h, htp]

/-- C8 witness: in the concrete run, the detail view of brew `uuidC`
inlines the fixture teapot and tea; after deleting the teapot it falls
back to the bare brew. -/
theorem getBrewById_expansion_witness :
    getBrewById state3 uuidC = ⟨200, .brewDetails fixtureBrew fixtureTeapot fixtureTea⟩ ∧
    getBrewById ((deleteTeapot state3 uuidA).2) uuidC = ⟨200, .brewE fixtureBrew⟩ :=
  ⟨(getBrewById_expansion state3 uuidC fixtureBrew (by decide) (by decide)).1
      fixtureTeapot fixtureTea (by decide) (by decide),
   (getBrewById_expansion ((deleteTeapot state3 uuidA).2) uuidC fixtureBrew
      (by decide) (by decide)).2 (Or.inl (by decide))⟩

/-- C9: a successful POST /brews creates a Brew with status "preparing",
waterTempCelsius equal to the supplied value or defaulted to the
referenced Tea's steepTempCelsius, startedAt = createdAt = updatedAt
(= the request clock), and completedAt = null; the brew is returned with
201 and inserted into the store. -/
theorem postBrews_creation_defaults (s : AppState) (body : CreateBrewInput)
    (newId : String) (now : Nat) (d : CreateBrew) (tp : Teapot) (tea : Tea)
    (hparse : CreateBrewSchema.safeParse body = some d)
    (htp : s.teapots.get d.teapotId = some tp)
    (htea : s.teas.get d.teaId = some tea) :
    ∃ brew : Brew,
      (postBrews s body newId now).1 = ⟨201, .brewE brew⟩ ∧
      (postBrews s body newId now).2.brews = s.brews.set brew.id brew ∧
      brew.status = .preparing ∧
      (∀ w, d.waterTempCelsius = some w → brew.waterTempCelsius = w) ∧
      (d.waterTempCelsius = Option.none →
        brew.waterTempCelsius = tea.steepTempCelsius) ∧
      brew.startedAt = brew.createdAt ∧ brew.createdAt = brew.updatedAt ∧
      brew.startedAt = now ∧ brew.completedAt = Option.none := by
  refine ⟨⟨newId, d.teapotId, d.teaId, .preparing,
    d.waterTempCelsius.getD tea.steepTempCelsius, d.notes, now, Option.none,
    now, now⟩, ?_, ?_, rfl, ?_, ?_, rfl, rfl, rfl, rfl⟩
  · simp [postBrews, hparse, htp, htea]
  · simp [postBrews, hparse, htp, htea]
  · intro w hw
    simp [hw]
  · intro hw
    simp [hw]

/-- C9 witness: the fixture brew creation (no waterTempCelsius supplied)
defaults the temperature to the tea's 75 and starts in "preparing". -/
theorem postBrews_creation_defaults_witness :
    ∃ brew : Brew,
      (postBrews state2 fixtureBrewBody uuidC 2).1 = ⟨201, .brewE brew⟩ ∧
      (postBrews state2 fixtureBrewBody uuidC 2).2.brews =
        state2.brews.set brew.id brew ∧
      brew.status = .preparing ∧
      (∀ w, (⟨uuidA, uuidB, Option.none, Option.none⟩ :
        CreateBrew).waterTempCelsius = some w → brew.waterTempCelsius = w) ∧
      ((⟨uuidA, uuidB, Option.none, Option.none⟩ :
        CreateBrew).waterTempCelsius = Option.none →
        brew.waterTempCelsius = fixtureTea.steepTempCelsius) ∧
      brew.startedAt = brew.createdAt ∧ brew.createdAt = brew.updatedAt ∧
      brew.startedAt = 2 ∧ brew.completedAt = Option.none :=
  postBrews_creation_defaults state2 fixtureBrewBody uuidC 2
    ⟨uuidA, uuidB, Option.none, Option.none⟩ fixtureTeapot fixtureTea
    (by decide) (by decide) (by decide)

/-- C5: for validated page ≥ 1 and 1 ≤ limit ≤ 100, the shared pagination
logic reports totalPages = ⌈total / limit⌉ and returns the slice
items[(page-1)·limit : (page-1)·limit + limit]; any page beyond totalPages
yields an empty data array (and no error is produced: the handlers answer
200 with this slice). -/
theorem pagination_spec {α : Type} (items : List α) (page limit : Nat)
    (hp : 1 ≤ page) (hl : 1 ≤ limit) (hl100 : limit ≤ 100) :
    (paginate items page limit).2 = items.length ⌈/⌉ limit ∧
    (paginate items page limit).1 =
      (items.drop ((page - 1) * limit)).take limit ∧
    ((paginate items page limit).2 < page →
      (paginate items page limit).1 = []) := by
  have htp : (paginate items page limit).2 = items.length ⌈/⌉ limit := by
    rw [Nat.ceilDiv_eq_add_pred_div]
    rfl
  refine ⟨htp, rfl, ?_⟩
  intro hlt
  rw [htp] at hlt
  have h0 : 0 < limit := hl
  have h1 : items.length ≤ limit * (items.length ⌈/⌉ limit) := by
    simpa [smul_eq_mul] using le_smul_ceilDiv (b := items.length) h0
  have h2 : items.length ⌈/⌉ limit ≤ page - 1 := by omega
  have hle : items.length ≤ (page - 1) * limit :=
    calc items.length ≤ limit * (items.length ⌈/⌉ limit) := h1
      _ = (items.length ⌈/⌉ limit) * limit := Nat.mul_comm _ _
      _ ≤ (page - 1) * limit := Nat.mul_le_mul_right _ h2
  show (items.drop ((page - 1) * limit)).take limit = []
  rw [List.drop_eq_nil_of_le hle, List.take_nil]

/-- C5 witness: five items, limit 2 → totalPages 3, and page 4 is empty. -/
theorem pagination_spec_witness :
    (paginate [10, 20, 30, 40, 50] 4 2).2 = ([10, 20, 30, 40, 50] : List Nat).length ⌈/⌉ 2 ∧
    (paginate [10, 20, 30, 40, 50] 4 2).1 =
      (([10, 20, 30, 40, 50] : List Nat).drop ((4 - 1) * 2)).take 2 ∧
    ((paginate [10, 20, 30, 40, 50] 4 2).2 < 4 →
      (paginate ([10, 20, 30, 40, 50] : List Nat) 4 2).1 = []) :=
  pagination_spec [10, 20, 30, 40, 50] 4 2 (by decide) (by decide) (by decide)

/-- C2: in every reachable state the steepNumbers of the Steeps of a given
brewId are exactly 1..N (unique and densely increasing), and a successful
POST /brews/:brewId/steeps assigns the new Steep steepNumber = N + 1 — the
k-th successfully created Steep under a brew carries steepNumber = k, the
numbers after the insertion being exactly 1..N+1. -/
theorem steep_numbering_dense (s : AppState) (b : String)
    (body : CreateSteepInput) (newId : String) (now : Nat)
    (hreach : Reachable s)
    (hok : (postBrewSteeps s b body newId now).1.status = 201)
    (hfresh : s.steeps.hasId newId = false) :
    steepNums s.steeps b = List.range' 1 (steepNums s.steeps b).length ∧
    (∃ st : Steep, (postBrewSteeps s b body newId now).1.body = .steepE st ∧
      st.steepNumber = (steepNums s.steeps b).length + 1) ∧
    steepNums ((postBrewSteeps s b body newId now).2).steeps b =
      List.range' 1 ((steepNums s.steeps b).length + 1) := by
  have hinv := reachable_numberingOk hreach
  refine ⟨hinv b, ?_⟩
  have hlen : (steepNums s.steeps b).length =
      (s.steeps.values.filter (fun st => st.brewId == b)).length := by
    rw [steepNums, List.length_map]
  have hu : isUuid b = true := by
    by_contra h
    have h' : isUuid b = false := by simpa using h
    simp [postBrewSteeps, h'] at hok
  have hbr : s.brews.hasId b = true := by
    by_contra h
    have h' : s.brews.hasId b = false := by simpa using h
    simp [postBrewSteeps, hu, h'] at hok
  cases hd : CreateSteepSchema.safeParse body with
  | none => simp [postBrewSteeps, hu, hbr, hd] at hok
  | some d =>
    simp only [postBrewSteeps, hu, hbr, hd, Bool.not_true, Bool.false_eq_true,
      if_false]
    constructor
    · refine ⟨_, rfl, ?_⟩
      dsimp only
      rw [hlen]
    · dsimp only
      rw [Store.set_fresh _ _ _ hfresh, steepNums_append_steep]
      dsimp only
      rw [if_pos (by simp)]
      have hsn := hinv b
      rw [hlen] at hsn
      rw [hlen, hsn, range'_snoc]
      simp [Nat.add_comm]

/-- C2 witness: in the concrete reachable state with one existing steep
under brew `uuidC`, a second successful creation gets steepNumber 2. -/
theorem steep_numbering_dense_witness :
    steepNums state4.steeps uuidC =
      List.range' 1 (steepNums state4.steeps uuidC).length ∧
    (∃ st : Steep,
      (postBrewSteeps state4 uuidC fixtureSteepBody uuidA 4).1.body = .steepE st ∧
      st.steepNumber = (steepNums state4.steeps uuidC).length + 1) ∧
    steepNums ((postBrewSteeps state4 uuidC fixtureSteepBody uuidA 4).2).steeps uuidC =
      List.range' 1 ((steepNums state4.steeps uuidC).length + 1) :=
  steep_numbering_dense state4 uuidC fixtureSteepBody uuidA 4
    (Reachable.stepPostBrewSteeps uuidC fixtureSteepBody uuidD 3
      (Reachable.stepPostBrews fixtureBrewBody uuidC 2
        (Reachable.stepPostTeas fixtureTeaBody uuidB 1
          (Reachable.stepPostTeapots fixtureTeapotBody uuidA 0
            Reachable.init (by decide))
          (by decide))
        (by decide))
      (by decide))
    (by decide) (by decide)

/-- C6: every PATCH (Teapot, Tea, Brew) on an existing entity with a valid
partial body answers 200 with the merged entity and stores it; fields
omitted from the request retain their pre-patch values, id and createdAt
are unchanged, updatedAt is set to the request clock (hence refreshed,
and non-decreasing whenever the clock is) even when no supplied field
differs. -/
theorem patch_frame_conditions :
    (∀ (s : AppState) (i : String) (body : PatchTeapotInput) (now : Nat)
        (e : Teapot) (d : PatchTeapot), isUuid i = true →
        s.teapots.get i = some e → PatchTeapotSchema.safeParse body = some d →
        (patchTeapot s i body now).1 = ⟨200, .teapotE (e.applyPatch d now)⟩ ∧
        (patchTeapot s i body now).2.teapots =
          s.teapots.set (e.applyPatch d now).id (e.applyPatch d now) ∧
        (e.applyPatch d now).id = e.id ∧
        (e.applyPatch d now).createdAt = e.createdAt ∧
        (e.applyPatch d now).updatedAt = now ∧
        (d.name = Option.none → (e.applyPatch d now).name = e.name) ∧
        (d.material = Option.none → (e.applyPatch d now).material = e.material) ∧
        (d.capacityMl = Option.none →
          (e.applyPatch d now).capacityMl = e.capacityMl) ∧
        (d.style = Option.none → (e.applyPatch d now).style = e.style) ∧
        (d.description = Option.none →
          (e.applyPatch d now).description = e.description) ∧
        (e.updatedAt ≤ now → e.updatedAt ≤ (e.applyPatch d now).updatedAt)) ∧
    (∀ (s : AppState) (i : String) (body : CreateTeaInput) (now : Nat)
        (e : Tea) (d : PatchTea), isUuid i = true →
        s.teas.get i = some e → PatchTeaSchema.safeParse body = some d →
        (patchTea s i body now).1 = ⟨200, .teaE (e.applyPatch d now)⟩ ∧
        (patchTea s i body now).2.teas =
          s.teas.set (e.applyPatch d now).id (e.applyPatch d now) ∧
        (e.applyPatch d now).id = e.id ∧
        (e.applyPatch d now).createdAt = e.createdAt ∧
        (e.applyPatch d now).updatedAt = now ∧
        (d.name = Option.none → (e.applyPatch d now).name = e.name) ∧
        (d.type = Option.none → (e.applyPatch d now).type = e.type) ∧
        (d.origin = Option.none → (e.applyPatch d now).origin = e.origin) ∧
        (d.caffeineLevel = Option.none →
          (e.applyPatch d now).caffeineLevel = e.caffeineLevel) ∧
        (d.steepTempCelsius = Option.none →
          (e.applyPatch d now).steepTempCelsius = e.steepTempCelsius) ∧
        (d.steepTimeSeconds = Option.none →
          (e.applyPatch d now).steepTimeSeconds = e.steepTimeSeconds) ∧
        (d.description = Option.none →
          (e.applyPatch d now).description = e.description) ∧
        (e.updatedAt ≤ now → e.updatedAt ≤ (e.applyPatch d now).updatedAt)) ∧
    (∀ (s : AppState) (i : String) (body : PatchBrewInput) (now : Nat)
        (e : Brew) (d : PatchBrew), isUuid i = true →
        s.brews.get i = some e → PatchBrewSchema.safeParse body = some d →
        (patchBrew s i body now).1 = ⟨200, .brewE (e.applyPatch d now)⟩ ∧
        (patchBrew s i body now).2.brews =
          s.brews.set (e.applyPatch d now).id (e.applyPatch d now) ∧
        (e.applyPatch d now).id = e.id ∧
        (e.applyPatch d now).createdAt = e.createdAt ∧
        (e.applyPatch d now).updatedAt = now ∧
        (e.applyPatch d now).teapotId = e.teapotId ∧
        (e.applyPatch d now).teaId = e.teaId ∧
        (e.applyPatch d now).waterTempCelsius = e.waterTempCelsius ∧
        (e.applyPatch d now).startedAt = e.startedAt ∧
        (d.status = Option.none → (e.applyPatch d now).status = e.status) ∧
        (d.notes = Option.none → (e.applyPatch d now).notes = e.notes) ∧
        (d.completedAt = Option.none →
          (e.applyPatch d now).completedAt = e.completedAt) ∧
        (e.updatedAt ≤ now → e.updatedAt ≤ (e.applyPatch d now).updatedAt)) := by
  refine ⟨?_, ?_, ?_⟩
  · intro s i body now e d hu hget hparse
    refine ⟨?_, ?_, rfl, rfl, rfl, ?_, ?_, ?_, ?_, ?_, fun h => h⟩
    · simp [patchTeapot, hu, hget, hparse]
    · simp [patchTeapot, hu, hget, hparse]
    all_goals intro h
    all_goals simp [Teapot.applyPatch, h]
  · intro s i body now e d hu hget hparse
    refine ⟨?_, ?_, rfl, rfl, rfl, ?_, ?_, ?_, ?_, ?_, ?_, ?_, fun h => h⟩
    · simp [patchTea, hu, hget, hparse]
    · simp [patchTea, hu, hget, hparse]
    all_goals intro h
    all_goals simp [Tea.applyPatch, h]
  · intro s i body now e d hu hget hparse
    refine ⟨?_, ?_, rfl, rfl, rfl, rfl, rfl, rfl, rfl, ?_, ?_, ?_, fun h => h⟩
    · simp [patchBrew, hu, hget, hparse]
    · simp [patchBrew, hu, hget, hparse]
    all_goals intro h
    all_goals simp [Brew.applyPatch, h]

/-- C6 witness: patching only the fixture teapot's name at clock 5 leaves
material untouched and refreshes updatedAt to 5. -/
theorem patch_frame_conditions_witness :
    (fixtureTeapot.applyPatch
      ⟨some "New Name", Option.none, Option.none, Option.none, Option.none⟩
      5).updatedAt = 5 ∧
    (fixtureTeapot.applyPatch
      ⟨some "New Name", Option.none, Option.none, Option.none, Option.none⟩
      5).material = fixtureTeapot.material :=
  have h := patch_frame_conditions.1 state1 uuidA
    ⟨some "New Name", Option.none, Option.none, Option.none, Option.none⟩ 5
    fixtureTeapot
    ⟨some "New Name", Option.none, Option.none, Option.none, Option.none⟩
    (by decide) (by decide) (by decide)
  ⟨h.2.2.2.2.1, h.2.2.2.2.2.2.1 rfl⟩

/-- C7: a list request whose query string fails validation (after
string-to-integer coercion: non-numeric page, page = 0, limit > 100, …)
is answered through the app's request boundary with a structured error
response — never an unhandled exception, never retried, never silently
corrected.  (The route handlers use `Schema.parse`, which throws; the
app-level error handler converts the throw into the structured 500
INTERNAL_ERROR body.) -/
theorem query_validation_surfaced :
    (∀ (s : AppState) (q : TeapotQueryInput),
      TeapotQuerySchema.parse q = Option.none →
      appBoundary (getTeapots s q) =
        ⟨500, .err "INTERNAL_ERROR" "An unexpected error occurred"⟩) ∧
    (∀ (s : AppState) (q : TeaQueryInput),
      TeaQuerySchema.parse q = Option.none →
      appBoundary (getTeas s q) =
        ⟨500, .err "INTERNAL_ERROR" "An unexpected error occurred"⟩) ∧
    (∀ (s : AppState) (q : BrewQueryInput),
      BrewQuerySchema.parse q = Option.none →
      appBoundary (getBrews s q) =
        ⟨500, .err "INTERNAL_ERROR" "An unexpected error occurred"⟩) ∧
    (∀ (s : AppState) (bid : String) (q : PaginationQueryInput),
      isUuid bid = true → s.brews.hasId bid = true →
      PaginationQuerySchema.parse q = Option.none →
      appBoundary (getBrewSteeps s bid q) =
        ⟨500, .err "INTERNAL_ERROR" "An unexpected error occurred"⟩) ∧
    (∀ (s : AppState) (tid : String) (q : PaginationQueryInput),
      isUuid tid = true → s.teapots.hasId tid = true →
      PaginationQuerySchema.parse q = Option.none →
      appBoundary (getTeapotBrews s tid q) =
        ⟨500, .err "INTERNAL_ERROR" "An unexpected error occurred"⟩) ∧
    TeapotQuerySchema.parse
      ⟨some "abc", Option.none, Option.none, Option.none⟩ = Option.none ∧
    TeapotQuerySchema.parse
      ⟨some "0", Option.none, Option.none, Option.none⟩ = Option.none ∧
    TeapotQuerySchema.parse
      ⟨Option.none, some "101", Option.none, Option.none⟩ = Option.none := by
  refine ⟨?_, ?_, ?_, ?_, ?_, by decide, by decide, by decide⟩
  · intro s q hq
    simp [getTeapots, appBoundary, hq]
  · intro s q hq
    simp [getTeas, appBoundary, hq]
  · intro s q hq
    simp [getBrews, appBoundary, hq]
  · intro s bid q hu hbr hq
    simp [getBrewSteeps, appBoundary, hu, hbr, hq]
  · intro s tid q hu htp hq
    simp [getTeapotBrews, appBoundary, hu, htp, hq]

/-- C7 witness: a non-numeric page on GET /teapots in the empty state is
surfaced as the structured boundary response. -/
theorem query_validation_surfaced_witness :
    appBoundary (getTeapots AppState.empty
      ⟨some "abc", Option.none, Option.none, Option.none⟩) =
      ⟨500, .err "INTERNAL_ERROR" "An unexpected error occurred"⟩ :=
  query_validation_surfaced.1 AppState.empty
    ⟨some "abc", Option.none, Option.none, Option.none⟩ (by decide)

/-- C10: whenever any mutating operation produces an error response
(status 400 or 404), the resulting application state — all four stores —
is exactly the state before the request: every error branch returns
before any store mutation.  (The GET handlers never return a modified
state at all in this embedding, mirroring that they perform no writes.) -/
theorem error_responses_atomic :
    (∀ (s : AppState) (body : CreateTeapotInput) (newId : String) (now : Nat),
      ((postTeapots s body newId now).1.status = 400 ∨
       (postTeapots s body newId now).1.status = 404) →
      (postTeapots s body newId now).2 = s) ∧
    (∀ (s : AppState) (i : String) (body : UpdateTeapotInput) (now : Nat),
      ((putTeapot s i body now).1.status = 400 ∨
       (putTeapot s i body now).1.status = 404) →
      (putTeapot s i body now).2 = s) ∧
    (∀ (s : AppState) (i : String) (body : PatchTeapotInput) (now : Nat),
      ((patchTeapot s i body now).1.status = 400 ∨
       (patchTeapot s i body now).1.status = 404) →
      (patchTeapot s i body now).2 = s) ∧
    (∀ (s : AppState) (i : String),
      ((deleteTeapot s i).1.status = 400 ∨ (deleteTeapot s i).1.status = 404) →
      (deleteTeapot s i).2 = s) ∧
    (∀ (s : AppState) (body : CreateTeaInput) (newId : String) (now : Nat),
      ((postTeas s body newId now).1.status = 400 ∨
       (postTeas s body newId now).1.status = 404) →
      (postTeas s body newId now).2 = s) ∧
    (∀ (s : AppState) (i : String) (body : CreateTeaInput) (now : Nat),
      ((putTea s i body now).1.status = 400 ∨
       (putTea s i body now).1.status = 404) →
      (putTea s i body now).2 = s) ∧
    (∀ (s : AppState) (i : String) (body : CreateTeaInput) (now : Nat),
      ((patchTea s i body now).1.status = 400 ∨
       (patchTea s i body now).1.status = 404) →
      (patchTea s i body now).2 = s) ∧
    (∀ (s : AppState) (i : String),
      ((deleteTea s i).1.status = 400 ∨ (deleteTea s i).1.status = 404) →
      (deleteTea s i).2 = s) ∧
    (∀ (s : AppState) (body : CreateBrewInput) (newId : String) (now : Nat),
      ((postBrews s body newId now).1.status = 400 ∨
       (postBrews s body newId now).1.status = 404) →
      (postBrews s body newId now).2 = s) ∧
    (∀ (s : AppState) (i : String) (body : PatchBrewInput) (now : Nat),
      ((patchBrew s i body now).1.status = 400 ∨
       (patchBrew s i body now).1.status = 404) →
      (patchBrew s i body now).2 = s) ∧
    (∀ (s : AppState) (i : String),
      ((deleteBrew s i).1.status = 400 ∨ (deleteBrew s i).1.status = 404) →
      (deleteBrew s i).2 = s) ∧
    (∀ (s : AppState) (bid : String) (body : CreateSteepInput)
        (newId : String) (now : Nat),
      ((postBrewSteeps s bid body newId now).1.status = 400 ∨
       (postBrewSteeps s bid body newId now).1.status = 404) →
      (postBrewSteeps s bid body newId now).2 = s) := by
  refine ⟨?_, ?_, ?_, ?_, ?_, ?_, ?_, ?_, ?_, ?_, ?_, ?_⟩
  · intro s body newId now h
    cases hp : CreateTeapotSchema.safeParse body with
    | none => simp [postTeapots, hp]
    | some d => simp [postTeapots, hp] at h
  · intro s i body now h
    by_cases hu : isUuid i = true
    · cases hg : s.teapots.get i with
      | none => simp [putTeapot, hu, hg]
      | some e =>
        cases hp : UpdateTeapotSchema.safeParse body with
        | none => simp [putTeapot, hu, hg, hp]
        | some d => simp [putTeapot, hu, hg, hp] at h
    · have hu' : isUuid i = false := by simpa using hu
      simp [putTeapot, hu']
  · intro s i body now h
    by_cases hu : isUuid i = true
    · cases hg : s.teapots.get i with
      | none => simp [patchTeapot, hu, hg]
      | some e =>
        cases hp : PatchTeapotSchema.safeParse body with
        | none => simp [patchTeapot, hu, hg, hp]
        | some d => simp [patchTeapot, hu, hg, hp] at h
    · have hu' : isUuid i = false := by simpa using hu
      simp [patchTeapot, hu']
  · intro s i h
    by_cases hu : isUuid i = true
    · by_cases he : s.teapots.hasId i = true
      · simp [deleteTeapot, hu, he] at h
      · have he' : s.teapots.hasId i = false := by simpa using he
        simp [deleteTeapot, hu, he']
    · have hu' : isUuid i = false := by simpa using hu
      simp [deleteTeapot, hu']
  · intro s body newId now h
    cases hp : CreateTeaSchema.safeParse body with
    | none => simp [postTeas, hp]
    | some d => simp [postTeas, hp] at h
  · intro s i body now h
    by_cases hu : isUuid i = true
    · cases hg : s.teas.get i with
      | none => simp [putTea, hu, hg]
      | some e =>
        cases hp : UpdateTeaSchema.safeParse body with
        | none => simp [putTea, hu, hg, hp]
        | some d => simp [putTea, hu, hg, hp] at h
    · have hu' : isUuid i = false := by simpa using hu
      simp [putTea, hu']
  · intro s i body now h
    by_cases hu : isUuid i = true
    · cases hg : s.teas.get i with
      | none => simp [patchTea, hu, hg]
      | some e =>
        cases hp : PatchTeaSchema.safeParse body with
        | none => simp [patchTea, hu, hg, hp]
        | some d => simp [patchTea, hu, hg, hp] at h
    · have hu' : isUuid i = false := by simpa using hu
      simp [patchTea, hu']
  · intro s i h
    by_cases hu : isUuid i = true
    · by_cases he : s.teas.hasId i = true
      · simp [deleteTea, hu, he] at h
      · have he' : s.teas.hasId i = false := by simpa using he
        simp [deleteTea, hu, he']
    · have hu' : isUuid i = false := by simpa using hu
      simp [deleteTea, hu']
  · intro s body newId now h
    cases hp : CreateBrewSchema.safeParse body with
    | none => simp [postBrews, hp]
    | some d =>
      cases htp : s.teapots.get d.teapotId with
      | none => simp [postBrews, hp, htp]
      | some tp =>
        cases hte : s.teas.get d.teaId with
        | none => simp [postBrews, hp, htp, hte]
        | some te => simp [postBrews, hp, htp, hte] at h
  · intro s i body now h
    by_cases hu : isUuid i = true
    · cases hg : s.brews.get i with
      | none => simp [patchBrew, hu, hg]
      | some e =>
        cases hp : PatchBrewSchema.safeParse body with
        | none => simp [patchBrew, hu, hg, hp]
        | some d => simp [patchBrew, hu, hg, hp] at h
    · have hu' : isUuid i = false := by simpa using hu
      simp [patchBrew, hu']
  · intro s i h
    by_cases hu : isUuid i = true
    · by_cases he : s.brews.hasId i = true
      · simp [deleteBrew, hu, he] at h
      · have he' : s.brews.hasId i = false := by simpa using he
        simp [deleteBrew, hu, he']
    · have hu' : isUuid i = false := by simpa using hu
      simp [deleteBrew, hu']
  · intro s bid body newId now h
    by_cases hu : isUuid bid = true
    · by_cases hbr : s.brews.hasId bid = true
      · cases hp : CreateSteepSchema.safeParse body with
        | none => simp [postBrewSteeps, hu, hbr, hp]
        | some d => simp [postBrewSteeps, hu, hbr, hp] at h
      · have hbr' : s.brews.hasId bid = false := by simpa using hbr
        simp [postBrewSteeps, hu, hbr']
    · have hu' : isUuid bid = false := by simpa using hu
      simp [postBrewSteeps, hu']

/-- C10 witness: a DELETE /brews/:id with a malformed id (400) leaves the
concrete state untouched. -/
theorem error_responses_atomic_witness :
    (deleteBrew state4 "not-a-uuid").2 = state4 :=
  error_responses_atomic.2.2.2.2.2.2.2.2.2.2.1 state4 "not-a-uuid"
    (Or.inl (by decide))

end TeaApi
